import Mathlib

/-!
# Verification of API-Extrator (`src/app.py`)

A shallow embedding of the two core functions of the repository:

* `extrair_dados_do_pdf` — PDF table extraction and field normalisation
  (the `pdfplumber` page/table structure is taken as input data:
  a page's `extract_table()` result is `Option Tabela`, a table is a
  list of rows, and a cell is `Option String` since `pdfplumber` cells
  may be `None`);
* `preencher_planilha_template` — copying the template spreadsheet and
  appending one row per record under a fixed column mapping (the
  filesystem is modelled as `String → Option Workbook`, a workbook as a
  named list of sheets, and a sheet as an association list of cells).

Monetary amounts are modelled as `ℚ` (the decimal strings in scope are
exact); Python builtins used by the code (`str.replace`, `str.strip`,
`str.upper`, `float`, `str` on a nonnegative `int`) are given explicit
executable models below.
-/

namespace Extrator

/-! ## Models of the Python string builtins used by `app.py` -/

/-- One step list of `str.replace`: replace every non-overlapping
occurrence of `pat` by `rep`, scanning left to right.  `fuel` bounds the
recursion (call sites pass the length of the scanned list; each step
consumes at least one character because every pattern used in `app.py`
is non-empty). -/
def replaceAux (pat rep : List Char) : ℕ → List Char → List Char
  | 0, s => s
  | _ + 1, [] => []
  | fuel + 1, c :: rest =>
    if pat.isPrefixOf (c :: rest) then
      rep ++ replaceAux pat rep fuel ((c :: rest).drop pat.length)
    else
      c :: replaceAux pat rep fuel rest

/-- Model of Python `s.replace(pat, rep)` for a non-empty `pat`. -/
def pyReplace (s pat rep : String) : String :=
  ⟨replaceAux pat.data rep.data s.data.length s.data⟩

/-- Python whitespace for `str.strip()` (ASCII part; the monetary and
name cells in scope are ASCII-spaced). -/
def isPySpace (c : Char) : Bool :=
  c = ' ' || c = '\t' || c = '\n' || c = '\r' || c = '\x0b' || c = '\x0c'

/-- Model of Python `s.strip()`: drop leading and trailing whitespace. -/
def pyStrip (s : String) : String :=
  ⟨((s.data.dropWhile isPySpace).reverse.dropWhile isPySpace).reverse⟩

/-- Model of Python `s.upper()` (ASCII case mapping; the header label
compared against is pure ASCII). -/
def pyUpper (s : String) : String :=
  ⟨s.data.map Char.toUpper⟩

/-- Split a character list on a separator character (used to model the
grammar of Python `float`). -/
def splitOnChar (sep : Char) : List Char → List (List Char)
  | [] => [[]]
  | c :: rest =>
    match splitOnChar sep rest with
    | [] => if c = sep then [[], [c]] else [[c]]
    | g :: gs => if c = sep then [] :: g :: gs else (c :: g) :: gs

/-- Numeric value of a digit list, most significant digit first.  (On a
list that is not all digits the result is meaningless; callers guard
with `allDigits`.) -/
def digitsToNat (cs : List Char) : ℕ :=
  cs.foldl (fun a c => 10 * a + (c.toNat - 48)) 0

def allDigits (cs : List Char) : Bool :=
  cs.all Char.isDigit

/-- Mantissa part of the Python `float` grammar: `digits`, `digits.`,
`.digits` or `digits.digits`, with at least one digit in total.
Returned as the triple (integer-part value, fraction-part value, number
of fraction digits), kept over `ℕ` so that the parse is
kernel-computable; `valorPyFloat` below assigns the rational value. -/
def parseMantissaParts : List Char → Option (ℕ × ℕ × ℕ)
  | cs =>
    match splitOnChar '.' cs with
    | [ip] =>
      if ip ≠ [] && allDigits ip then some (digitsToNat ip, 0, 0) else none
    | [ip, fp] =>
      if (ip ≠ [] || fp ≠ []) && allDigits ip && allDigits fp then
        some (digitsToNat ip, digitsToNat fp, fp.length)
      else none
    | _ => none

/-- Exponent part of the Python `float` grammar: an optionally signed
digit string. -/
def parseExpoente : List Char → Option ℤ
  | '+' :: r => if r ≠ [] && allDigits r then some (digitsToNat r : ℤ) else none
  | '-' :: r => if r ≠ [] && allDigits r then some (-(digitsToNat r : ℤ)) else none
  | r => if r ≠ [] && allDigits r then some (digitsToNat r : ℤ) else none

/-- Parsed shape of a Python float literal: is-negative flag,
integer-part value, fraction-part value, fraction length, exponent. -/
abbrev PyFloatParts := Bool × ℕ × ℕ × ℕ × ℤ

/-- Grammar of Python `float(s)`: optional surrounding whitespace,
optional sign, mantissa, optional `e`/`E` exponent.  (`inf`/`nan` and
digit-group underscores, which no monetary cell can reach, are not
modelled — they have no rational value.)  `none` models `float` raising
`ValueError`. -/
def parsePyFloatParts (s : String) : Option PyFloatParts :=
  let cs := (pyStrip s).data.map Char.toLower
  let neg : Bool := match cs with
    | '-' :: _ => true
    | _ => false
  let rest : List Char := match cs with
    | '-' :: r => r
    | '+' :: r => r
    | r => r
  match splitOnChar 'e' rest with
  | [m] => (parseMantissaParts m).map (fun p => (neg, p.1, p.2.1, p.2.2, (0 : ℤ)))
  | [m, ex] =>
    match parseMantissaParts m, parseExpoente ex with
    | some p, some ev => some (neg, p.1, p.2.1, p.2.2, ev)
    | _, _ => none
  | _ => none

/-- Exact rational value of a parsed float. -/
def valorPyFloat : PyFloatParts → ℚ
  | (neg, ip, fp, k, e) =>
    (cond neg (-1) 1 : ℚ) * ((ip : ℚ) + (fp : ℚ) / (10 : ℚ) ^ k) * (10 : ℚ) ^ e

/-- Model of Python `float(s)` on decimal strings, as an exact
rational. -/
def parsePyFloat (s : String) : Option ℚ :=
  (parsePyFloatParts s).map valorPyFloat

/-! ## The extractor: `extrair_dados_do_pdf` (`app.py` lines 55–101) -/

/-- A table cell as returned by `pdfplumber` (`None` or a string). -/
abbrev Celula := Option String

/-- One table row. -/
abbrev Linha := List Celula

/-- One extracted table (list of rows). -/
abbrev Tabela := List Linha

/-- A PDF document, page by page: each page contributes the result of
`page.extract_table()` (`none` when no table is detected). -/
abbrev Pdf := List (Option Tabela)

/-- A spreadsheet cell value: the record dictionaries mix strings and
floats. -/
inductive CellValue where
  | str (s : String)
  | num (q : ℚ)
deriving DecidableEq

/-- A record, as the Python dict built at `app.py` lines 86–100:
an association list from field name to value (keys are unique in the
dict literal; lookup takes the first match). -/
abbrev Registro := List (String × CellValue)

/-- Model of `registro.get(k, d)`. -/
def Registro.get (r : Registro) (k : String) (d : CellValue) : CellValue :=
  (((r.find? (fun p => p.1 == k)).map (fun p => p.2)).getD d)

/-- The cleanup chain applied to the monetary cell text
(`app.py` line 78): strip the currency marker, drop thousands dots,
turn the decimal comma into a dot, strip whitespace. -/
def limparValor (s : String) : String :=
  pyStrip (pyReplace (pyReplace (pyReplace s "R$" "") "." "") "," ".")

/-- Monetary parse of one cell (`app.py` lines 76–81): falsy cells
(`None` or `""`) give `0.0`; otherwise clean the text and apply
`float`, with any parse failure (the `except` branch) giving `0.0`. -/
def parseValorCelula (cell : Celula) : ℚ :=
  match cell with
  | none => 0
  | some s =>
    if s = "" then 0
    else
      let raw := limparValor s
      if raw = "" then 0 else (parsePyFloat raw).getD 0

/-- `valor_total` of a row: `app.py` line 77 guards with
`len(linha) > 14 and linha[14]`. -/
def valorDaLinha (linha : Linha) : ℚ :=
  if 14 < linha.length then parseValorCelula (linha.getD 14 none) else 0

/-- `chave_pix` of a row (`app.py` lines 83–84): cell 3 stripped when
present and truthy, `""` otherwise. -/
def chavePixDaLinha (linha : Linha) : String :=
  if 3 < linha.length then
    match linha.getD 3 none with
    | none => ""
    | some s => if s = "" then "" else pyStrip s
  else ""

/-- The record dict literal of `app.py` lines 86–100.  `hoje` is the
value of `datetime.now().strftime` at extraction time. -/
def mkRegistro (nome : String) (valor_total : ℚ) (chave_pix : String) (hoje : String) : Registro :=
  [("Fornecedor", .str nome),
   ("Categoria", .str "Prestação de Serviços Médicos"),
   ("Conta Corrente", .str "Omie.CASH"),
   ("Valor da Conta", .num valor_total),
   ("Projeto", .str "Projeto Padrão"),
   ("Data de Emissão", .str hoje),
   ("Data de Registro", .str hoje),
   ("Data de Vencimento", .str "15/08/2025"),
   ("Valor do Pagamento", .num valor_total),
   ("Data de Conciliação", .str ""),
   ("Observações", .str ""),
   ("Chave Pix", .str chave_pix),
   ("Departamento (100%)", .str "Financeiro")]

/-- `nome = (linha[1] or "").strip()` (`app.py` line 66). -/
def nomeDaLinha (linha : Linha) : String :=
  pyStrip ((linha.getD 1 none).getD "")

/-- Per-row body of the extraction loop (`app.py` lines 61–100):
`none` when the row is skipped (`continue`), `some` the appended record
otherwise. -/
def processaLinha (hoje : String) (linha : Linha) : Option Registro :=
  if linha.length < 2 then none
  else if nomeDaLinha linha == "" || pyUpper (nomeDaLinha linha) == "NOME DO PROFISSIONAL" then
    none
  else
    some (mkRegistro (nomeDaLinha linha) (valorDaLinha linha) (chavePixDaLinha linha) hoje)

/-- Per-page body: `tabela[1:]` skips the header row; a page without a
detected table contributes nothing (an empty detected table is falsy in
Python, and contributes nothing here as well since it has no data
rows). -/
def extraiTabela (hoje : String) (tabela : Option Tabela) : List Registro :=
  match tabela with
  | none => []
  | some t => (t.drop 1).filterMap (processaLinha hoje)

/-- `extrair_dados_do_pdf`: records accumulated page by page, in
document order. -/
def extrair_dados_do_pdf (hoje : String) (pdf : Pdf) : List Registro :=
  pdf.flatMap (extraiTabela hoje)

/-! ## Model of Python `str` on a nonnegative `int`

The result file name is built by the f-string
`f"resultado_{timestamp}.xlsx"` (`app.py` line 107), where `timestamp`
is the nonnegative integer `int(time.time())`.  Decimal rendering is
modelled by a fuel-based (hence kernel-computable) most-significant-
digit-first renderer. -/

/-- The ASCII digit character of `d < 10`. -/
def digitChar (d : ℕ) : Char :=
  Char.ofNat (48 + d)

/-- Decimal digits of `n`, most significant first; `fuel` bounds the
recursion (call sites pass `n + 1`, which suffices since the argument
at least halves every step). -/
def decimalDigits : ℕ → ℕ → List Char
  | 0, _ => []
  | fuel + 1, n =>
    if n < 10 then [digitChar n]
    else decimalDigits fuel (n / 10) ++ [digitChar (n % 10)]

/-- Model of Python `str(n)` for a nonnegative int `n`. -/
def strOfNat (n : ℕ) : String :=
  ⟨decimalDigits (n + 1) n⟩

/-! ## The filler: `preencher_planilha_template` (`app.py` lines 104–147) -/

/-- Model of `openpyxl.utils.column_index_from_string` on an uppercase
letter string: base-26 value with `A = 1`. -/
def column_index_from_string (s : String) : ℕ :=
  s.data.foldl (fun a c => 26 * a + (c.toNat - 64)) 0

/-- The `colunas_mapeamento` dict of `app.py` lines 119–133, in
insertion order. -/
def colunas_mapeamento : List (String × String) :=
  [("Fornecedor", "B"),
   ("Categoria", "C"),
   ("Conta Corrente", "D"),
   ("Valor da Conta", "E"),
   ("Projeto", "G"),
   ("Data de Emissão", "H"),
   ("Data de Registro", "I"),
   ("Data de Vencimento", "J"),
   ("Valor do Pagamento", "M"),
   ("Data de Conciliação", "Q"),
   ("Observações", "R"),
   ("Chave Pix", "AJ"),
   ("Departamento (100%)", "AW")]

/-- One cell write: ((row, column), value), both 1-indexed, as passed
to `ws.cell(row=..., column=..., value=...)`. -/
abbrev Escrita := (ℕ × ℕ) × CellValue

/-- The inner loop of `app.py` lines 142–144: the cell writes issued
for one record placed at row `linha`, in mapping order.  A missing key
is written as `""` via `registro.get(col_nome, "")`. -/
def escreveRegistro (registro : Registro) (linha : ℕ) : List Escrita :=
  colunas_mapeamento.map
    (fun p => ((linha, column_index_from_string p.2), registro.get p.1 (.str "")))

/-- The outer loop of `app.py` lines 140–144: record `i` (0-indexed)
goes to row `start_row + i`; rendered as a recursion that advances the
row by one per record, which is the same iteration as
`for i, registro in enumerate(dados): linha = start_row + i`. -/
def preencherEscritas : List Registro → ℕ → List Escrita
  | [], _ => []
  | registro :: resto, linha =>
    escreveRegistro registro linha ++ preencherEscritas resto (linha + 1)

/-- An `openpyxl` worksheet: the association list of its populated
cells, most recent write first (`getCelula` takes the first match, so
prepending models overwriting). -/
structure Sheet where
  cells : List Escrita
deriving DecidableEq

def Sheet.getCelula (ws : Sheet) (rc : ℕ × ℕ) : Option CellValue :=
  ((ws.cells.find? (fun p => p.1 == rc)).map (fun p => p.2))

/-- `ws.cell(row=..., column=..., value=...)`. -/
def Sheet.setCelula (ws : Sheet) (rc : ℕ × ℕ) (v : CellValue) : Sheet :=
  ⟨(rc, v) :: ws.cells⟩

/-- `ws.max_row`: the maximum populated row index, and at least 1
(openpyxl reports 1 for an empty sheet). -/
def Sheet.max_row (ws : Sheet) : ℕ :=
  max 1 ((ws.cells.map (fun p => p.1.1)).foldl max 0)

/-- Apply a list of cell writes in order. -/
def Sheet.aplicaEscritas (ws : Sheet) (es : List Escrita) : Sheet :=
  es.foldl (fun a e => a.setCelula e.1 e.2) ws

/-- An `openpyxl` workbook: its sheets by name (`wb[name]` takes the
first sheet of that name; names are unique in a real workbook). -/
structure Workbook where
  sheets : List (String × Sheet)
deriving DecidableEq

def Workbook.sheetnames (wb : Workbook) : List String :=
  wb.sheets.map (fun p => p.1)

/-- The workbook after the fill loop ran on sheet `aba`. -/
def Workbook.preenche (wb : Workbook) (aba : String) (dados : List Registro) : Workbook :=
  ⟨wb.sheets.map (fun p =>
    if p.1 == aba then (p.1, p.2.aplicaEscritas (preencherEscritas dados (p.2.max_row + 1)))
    else p)⟩

/-! ### Paths and the filesystem -/

/-- `UPLOAD_FOLDER = os.path.join(os.path.dirname(__file__), "uploads")`
(`app.py` line 40); `base` stands for the directory of `app.py`. -/
def UPLOAD_FOLDER (base : String) : String :=
  base ++ "/uploads"

/-- `TEMPLATE_XLSX = os.path.join(os.path.dirname(__file__),
"planilha_teste.xlsx")` (`app.py` line 42). -/
def TEMPLATE_XLSX (base : String) : String :=
  base ++ "/planilha_teste.xlsx"

/-- `f"resultado_{timestamp}.xlsx"` (`app.py` line 107). -/
def resultadoNome (timestamp : ℕ) : String :=
  "resultado_" ++ strOfNat timestamp ++ ".xlsx"

/-- `os.path.join(UPLOAD_FOLDER, resultado_nome)` (`app.py` line 108). -/
def resultadoPath (base : String) (timestamp : ℕ) : String :=
  UPLOAD_FOLDER base ++ "/" ++ resultadoNome timestamp

/-- The filesystem, as the contents found at each path.  Only
spreadsheet files matter to the filler, so contents are workbooks;
`shutil.copyfile` of a workbook file produces an equal workbook. -/
abbrev FS := String → Option Workbook

/-- Outcomes of `preencher_planilha_template`: the returned result
path; the `ValueError` of `app.py` line 114 when the target sheet is
missing (the spec's TemplateError), carrying the offending sheet name;
or the `OSError` of `shutil.copyfile` when the template file itself is
absent. -/
inductive FillOutcome where
  | ok (path : String)
  | templateError (aba : String)
  | ioError
deriving DecidableEq

/-- `preencher_planilha_template(dados, caminho_template, aba_destino)`
with the ambient state made explicit: `base` is the directory of
`app.py`, `timestamp` is `int(time.time())` at entry, and the
filesystem is passed in and returned.  Steps, as in `app.py`
lines 104–147: copy the template to the result path, reopen the copy,
fail if the target sheet is absent (the copy remains on disk), else
fill the sheet, save the copy, and return its path. -/
def preencher_planilha_template (fs : FS) (dados : List Registro)
    (caminho_template aba_destino : String) (base : String) (timestamp : ℕ) :
    FS × FillOutcome :=
  let resultado_path := resultadoPath base timestamp
  match fs caminho_template with
  | none => (fs, .ioError)
  | some wb =>
    let fs1 : FS := fun p => if p = resultado_path then some wb else fs p
    if aba_destino ∈ wb.sheetnames then
      let wb2 := wb.preenche aba_destino dados
      (fun p => if p = resultado_path then some wb2 else fs1 p, .ok resultado_path)
    else
      (fs1, .templateError aba_destino)

/-! ### Derived definitions used by the claim statements -/

/-- The row-exclusion test applied by the loop body (`app.py`
lines 63–68), as one boolean: fewer than 2 cells, or an empty trimmed
name at index 1, or a name whose uppercasing is the header label. -/
def linhaExcluida (linha : Linha) : Bool :=
  decide (linha.length < 2) ||
    (nomeDaLinha linha == "" || pyUpper (nomeDaLinha linha) == "NOME DO PROFISSIONAL")

/-- The record a qualifying row yields. -/
def registroDaLinha (hoje : String) (linha : Linha) : Registro :=
  mkRegistro (nomeDaLinha linha) (valorDaLinha linha) (chavePixDaLinha linha) hoje

/-- The set of column indices the filler ever writes, as the image of
the mapping's letters. -/
def mappedColumns : List ℕ :=
  colunas_mapeamento.map (fun p => column_index_from_string p.2)

/-- The failure the spec calls ExtractionError: the exception that
`pdfplumber.open` (or parsing) raises propagates out of
`extrair_dados_do_pdf` unhandled, carrying the underlying failure. -/
inductive ExtractionError where
  | wrap (msg : String)
deriving DecidableEq

/-- The extraction contract with the exception channel made explicit:
`abertura` is the outcome of `pdfplumber.open(pdf_path)` (`.error`
when the document cannot be opened or parsed); on success the body of
`extrair_dados_do_pdf` runs and cannot itself fail. -/
def extrairResultado (hoje : String) (abertura : Except String Pdf) :
    Except ExtractionError (List Registro) :=
  match abertura with
  | .error e => .error (.wrap e)
  | .ok pdf => .ok (extrair_dados_do_pdf hoje pdf)

end Extrator

example : Extrator.strOfNat 0 = "0" := by decide
example : Extrator.strOfNat 1023 = "1023" := by decide
example : Extrator.column_index_from_string "B" = 2 := by decide
example : Extrator.column_index_from_string "AJ" = 36 := by decide
example : Extrator.column_index_from_string "AW" = 49 := by decide
example : Extrator.resultadoPath "/srv/app" 99 = "/srv/app/uploads/resultado_99.xlsx" := by decide
example : Extrator.limparValor "1.234,56" = "1234.56" := by decide
example : Extrator.limparValor "R$ 45,00" = "45.00" := by decide
example : Extrator.parsePyFloatParts "1234.56" = some (false, 1234, 56, 2, 0) := by decide
example : Extrator.parsePyFloatParts "45.00" = some (false, 45, 0, 2, 0) := by decide
example : Extrator.parsePyFloatParts "abc" = none := by decide
example : Extrator.parsePyFloatParts "1e" = none := by decide
example : Extrator.parsePyFloatParts "." = none := by decide
example : Extrator.parsePyFloatParts "-1.5e2" = some (true, 1, 5, 1, 2) := by decide
example : Extrator.parsePyFloatParts ".5" = some (false, 0, 5, 1, 0) := by decide
example : Extrator.parseValorCelula (some "") = 0 := by decide
example : Extrator.parseValorCelula (some "abc") = 0 := by decide
example : Extrator.parseValorCelula (some "1.234,56") = (1234.56 : ℚ) := by
  have h0 : Extrator.limparValor "1.234,56" = "1234.56" := by decide
  have h : Extrator.parsePyFloatParts "1234.56" = some (false, 1234, 56, 2, 0) := by decide
  simp [Extrator.parseValorCelula, Extrator.parsePyFloat, h0, h]
  norm_num [Extrator.valorPyFloat]

namespace Extrator

/-! ## Claim theorems -/

/-- C1: monetary parsing of the column-14 cell. `"1.234,56"` parses to
`1234.56` and `"R$ 45,00"` to `45.0`; an empty or `None` cell, a row
with no column 14, and any text the `float` grammar rejects all yield
`0.0`.  The parse is a total function (the `except` branch of `app.py`
lines 80–81 converts every parse failure into `0.0`), so it never
raises out of the row. -/
theorem C1_monetary_parse :
    parseValorCelula (some "1.234,56") = (1234.56 : ℚ) ∧
    parseValorCelula (some "R$ 45,00") = (45.0 : ℚ) ∧
    parseValorCelula (some "") = 0 ∧
    parseValorCelula none = 0 ∧
    (∀ linha : Linha, linha.length ≤ 14 → valorDaLinha linha = 0) ∧
    (∀ s : String, parsePyFloatParts (limparValor s) = none →
      parseValorCelula (some s) = 0) := by
  refine ⟨?_, ?_, by decide, rfl, ?_, ?_⟩
  · have h0 : limparValor "1.234,56" = "1234.56" := by decide
    have h : parsePyFloatParts "1234.56" = some (false, 1234, 56, 2, 0) := by decide
    simp [parseValorCelula, parsePyFloat, h0, h]
    norm_num [valorPyFloat]
  · have h0 : limparValor "R$ 45,00" = "45.00" := by decide
    have h : parsePyFloatParts "45.00" = some (false, 45, 0, 2, 0) := by decide
    simp [parseValorCelula, parsePyFloat, h0, h]
    norm_num [valorPyFloat]
  · intro linha hlen
    simp only [valorDaLinha]
    rw [if_neg (by omega)]
  · intro s h
    by_cases hs : s = ""
    · simp [parseValorCelula, hs]
    · by_cases hraw : limparValor s = ""
      · simp [parseValorCelula, hs, hraw]
      · simp [parseValorCelula, parsePyFloat, hs, hraw, h]

/-- Witness for C1 at concrete inputs: a 2-cell row has no column 14,
and the cleaned text of `"sem valor"` fails the float grammar. -/
theorem C1_monetary_parse_witness :
    valorDaLinha [some "1", some "Ana"] = 0 ∧
    parseValorCelula (some "sem valor") = 0 :=
  ⟨C1_monetary_parse.2.2.2.2.1 [some "1", some "Ana"] (by decide),
   C1_monetary_parse.2.2.2.2.2 "sem valor" (by decide)⟩

/-- Helper: the loop body is the `linhaExcluida` test followed by the
record construction. -/
theorem processaLinha_eq (hoje : String) (linha : Linha) :
    processaLinha hoje linha =
      if linhaExcluida linha then none else some (registroDaLinha hoje linha) := by
  unfold processaLinha linhaExcluida registroDaLinha
  by_cases h1 : linha.length < 2
  · simp [h1]
  · by_cases h2 : (nomeDaLinha linha == "" ||
        pyUpper (nomeDaLinha linha) == "NOME DO PROFISSIONAL") = true
    · simp [h1, h2]
    · simp [h1, h2]

/-- C2: per table, the first row is skipped, and the remaining rows
split exactly by `linhaExcluida`: a row with fewer than 2 cells, an
empty trimmed name at index 1, or the header label as name contributes
nothing, and every other row contributes exactly one record (in
order). -/
theorem C2_row_filter (hoje : String) (tabela : Tabela) :
    extraiTabela hoje (some tabela) =
      ((tabela.drop 1).filter (fun l => !linhaExcluida l)).map (registroDaLinha hoje) := by
  show (tabela.drop 1).filterMap (processaLinha hoje) = _
  induction tabela.drop 1 with
  | nil => rfl
  | cons linha resto ih =>
    rw [List.filterMap_cons, List.filter_cons]
    cases h : linhaExcluida linha with
    | true => simp [processaLinha_eq, h, ih]
    | false => simp [processaLinha_eq, h, ih]

/-- C9: in every record the extractor produces, the fields
`Valor da Conta` and `Valor do Pagamento` hold the same value (both
are assigned `valor_total`, `app.py` lines 90 and 95). -/
theorem C9_valores_iguais (hoje : String) (pdf : Pdf) (r : Registro)
    (hr : r ∈ extrair_dados_do_pdf hoje pdf) :
    r.get "Valor da Conta" (.str "") = r.get "Valor do Pagamento" (.str "") := by
  unfold extrair_dados_do_pdf at hr
  rw [List.mem_flatMap] at hr
  obtain ⟨tab?, -, hrt⟩ := hr
  cases tab? with
  | none => simp [extraiTabela] at hrt
  | some tab =>
    simp only [extraiTabela] at hrt
    rw [List.mem_filterMap] at hrt
    obtain ⟨linha, -, hl⟩ := hrt
    rw [processaLinha_eq] at hl
    split at hl
    · exact absurd hl (by simp)
    · injection hl with h
      subst h
      rfl

/-- Witness for C9: a one-table, one-data-row document. -/
theorem C9_valores_iguais_witness :
    (mkRegistro "Ana" 0 "" "31/12/2025").get "Valor da Conta" (.str "") =
      (mkRegistro "Ana" 0 "" "31/12/2025").get "Valor do Pagamento" (.str "") :=
  C9_valores_iguais "31/12/2025" [some [[], [none, some "Ana"]]]
    (mkRegistro "Ana" 0 "" "31/12/2025") (List.Mem.head _)

/-- C10: the write of one record is total for an arbitrary (possibly
partial) record dictionary: every one of the 13 mapped fields
produces exactly one cell write, valued by the defaulting lookup
`registro.get(col_nome, "")`, and a record lacking a mapped key gets
`""` written for that field. -/
theorem C10_defaulting_get_total (registro : Registro) (linha : ℕ) :
    (escreveRegistro registro linha).length = colunas_mapeamento.length ∧
    (∀ p ∈ colunas_mapeamento,
      ((linha, column_index_from_string p.2), registro.get p.1 (.str "")) ∈
        escreveRegistro registro linha) ∧
    (∀ p ∈ colunas_mapeamento,
      registro.find? (fun q => q.1 == p.1) = none →
        ((linha, column_index_from_string p.2), CellValue.str "") ∈
          escreveRegistro registro linha) := by
  refine ⟨List.length_map _ _, fun p hp => List.mem_map_of_mem _ hp, fun p hp hnone => ?_⟩
  have h2 : ((linha, column_index_from_string p.2), registro.get p.1 (CellValue.str "")) ∈
      escreveRegistro registro linha := List.mem_map_of_mem _ hp
  rwa [show registro.get p.1 (CellValue.str "") = CellValue.str "" from by
    simp [Registro.get, hnone]] at h2

/-- Witness for C10: the empty record lacks the key `Fornecedor`, and
its write for that field is the empty string in column B. -/
theorem C10_defaulting_get_total_witness :
    ((5, column_index_from_string "B"), CellValue.str "") ∈ escreveRegistro [] 5 :=
  (C10_defaulting_get_total [] 5).2.2 ("Fornecedor", "B") (by decide) rfl


/-- Helper: every write of the fill loop lands in a row at or after the
start row and before start row + number of records. -/
theorem preencherEscritas_row_bounds (dados : List Registro) :
    ∀ s, ∀ e ∈ preencherEscritas dados s, s ≤ e.1.1 ∧ e.1.1 < s + dados.length := by
  induction dados with
  | nil => intro s e he; simp [preencherEscritas] at he
  | cons reg resto ih =>
    intro s e he
    rw [preencherEscritas, List.mem_append] at he
    rcases he with he | he
    · unfold escreveRegistro at he
      rw [List.mem_map] at he
      obtain ⟨p, -, rfl⟩ := he
      simp only [List.length_cons]
      omega
    · have h := ih (s + 1) e he
      simp only [List.length_cons]
      omega

/-- Helper: record `i` of the fill loop writes each of its mapped
fields into row `s + i`. -/
theorem preencherEscritas_mem (dados : List Registro) :
    ∀ s i (h : i < dados.length), ∀ p ∈ colunas_mapeamento,
      ((s + i, column_index_from_string p.2), (dados.get ⟨i, h⟩).get p.1 (.str "")) ∈
        preencherEscritas dados s := by
  induction dados with
  | nil => intro s i h; exact absurd h (by simp)
  | cons reg resto ih =>
    intro s i h p hp
    cases i with
    | zero =>
      rw [preencherEscritas, List.mem_append]
      left
      exact List.mem_map_of_mem _ hp
    | succ j =>
      rw [preencherEscritas, List.mem_append]
      right
      have hmem := ih (s + 1) j (by simpa using h) p hp
      rw [show s + (j + 1) = s + 1 + j from by omega]
      exact hmem

/-- C3: the fill of a sheet starts at `max_row + 1` (`app.py`
line 136); every write lands in a row between `max_row + 1` and
`max_row + N` (so none at or below `max_row`, and none beyond), and
record `i` (0-indexed) writes each of its mapped fields into row
`max_row + 1 + i`. -/
theorem C3_append_rows (dados : List Registro) (ws : Sheet) :
    (∀ e ∈ preencherEscritas dados (ws.max_row + 1),
      ws.max_row + 1 ≤ e.1.1 ∧ e.1.1 ≤ ws.max_row + dados.length) ∧
    (∀ i (h : i < dados.length), ∀ p ∈ colunas_mapeamento,
      ((ws.max_row + 1 + i, column_index_from_string p.2),
        (dados.get ⟨i, h⟩).get p.1 (.str "")) ∈ preencherEscritas dados (ws.max_row + 1)) := by
  constructor
  · intro e he
    have h := preencherEscritas_row_bounds dados (ws.max_row + 1) e he
    omega
  · intro i h p hp
    exact preencherEscritas_mem dados (ws.max_row + 1) i h p hp

/-- Witness for C3 with one (empty) record appended after max row 3:
the single write row is 4, and field `Fornecedor` of record 0 lands in
row 4, column B. -/
theorem C3_append_rows_witness :
    ((⟨[((3, 2), CellValue.str "x")]⟩ : Sheet).max_row + 1 ≤
        (((4, 2), CellValue.str "") : Escrita).1.1 ∧
      (((4, 2), CellValue.str "") : Escrita).1.1 ≤
        (⟨[((3, 2), CellValue.str "x")]⟩ : Sheet).max_row + 1) ∧
    (((⟨[((3, 2), CellValue.str "x")]⟩ : Sheet).max_row + 1 + 0, column_index_from_string "B"),
      Registro.get ([([] : Registro)].get ⟨0, by decide⟩) "Fornecedor" (CellValue.str "")) ∈
      preencherEscritas [[]] ((⟨[((3, 2), CellValue.str "x")]⟩ : Sheet).max_row + 1) :=
  ⟨(C3_append_rows [[]] ⟨[((3, 2), CellValue.str "x")]⟩).1 ((4, 2), CellValue.str "") (by decide),
   (C3_append_rows [[]] ⟨[((3, 2), CellValue.str "x")]⟩).2 0 (by decide)
     ("Fornecedor", "B") (by decide)⟩

/-- Helper: reading a cell other than the one just written sees the
previous sheet. -/
theorem getCelula_setCelula_ne (ws : Sheet) (rc : ℕ × ℕ) (v : CellValue)
    (q : ℕ × ℕ) (h : rc ≠ q) :
    (ws.setCelula rc v).getCelula q = ws.getCelula q := by
  unfold Sheet.setCelula Sheet.getCelula
  rw [List.find?_cons_of_neg]
  simpa using h

/-- Helper: applying writes none of which targets column `c` leaves
every cell of column `c` unchanged. -/
theorem aplicaEscritas_frame (es : List Escrita) :
    ∀ ws : Sheet, ∀ r c, (∀ e ∈ es, e.1.2 ≠ c) →
      (ws.aplicaEscritas es).getCelula (r, c) = ws.getCelula (r, c) := by
  induction es with
  | nil => intro ws r c _; rfl
  | cons e resto ih =>
    intro ws r c h
    show ((ws.setCelula e.1 e.2).aplicaEscritas resto).getCelula (r, c) = _
    rw [ih _ r c (fun x hx => h x (List.mem_cons_of_mem _ hx))]
    refine getCelula_setCelula_ne _ _ _ _ (fun heq => ?_)
    exact h e (List.mem_cons_self _ _) (by rw [heq])

/-- Helper: every write's column is in the image of the mapping. -/
theorem preencherEscritas_cols (dados : List Registro) :
    ∀ s, ∀ e ∈ preencherEscritas dados s, e.1.2 ∈ mappedColumns := by
  induction dados with
  | nil => intro s e he; simp [preencherEscritas] at he
  | cons reg resto ih =>
    intro s e he
    rw [preencherEscritas, List.mem_append] at he
    rcases he with he | he
    · unfold escreveRegistro at he
      rw [List.mem_map] at he
      obtain ⟨p, hp, rfl⟩ := he
      exact List.mem_map_of_mem _ hp
    · exact ih _ e he

/-- C4: the mapping's letters denote exactly columns
2,3,4,5,7,8,9,10,13,17,18,36,49 (B,C,D,E,G,H,I,J,M,Q,R,AJ,AW); each
field of record `i` lands exactly in its mapped column; every write's
column is mapped; and any cell in a column outside the mapping reads
the same after the fill as before. -/
theorem C4_column_mapping (dados : List Registro) (s : ℕ) (ws : Sheet) :
    mappedColumns = [2, 3, 4, 5, 7, 8, 9, 10, 13, 17, 18, 36, 49] ∧
    (∀ i (h : i < dados.length), ∀ p ∈ colunas_mapeamento,
      ((s + i, column_index_from_string p.2),
        (dados.get ⟨i, h⟩).get p.1 (.str "")) ∈ preencherEscritas dados s) ∧
    (∀ e ∈ preencherEscritas dados s, e.1.2 ∈ mappedColumns) ∧
    (∀ r c, c ∉ mappedColumns →
      (ws.aplicaEscritas (preencherEscritas dados s)).getCelula (r, c) =
        ws.getCelula (r, c)) := by
  refine ⟨by decide, preencherEscritas_mem dados s, preencherEscritas_cols dados s, ?_⟩
  intro r c hc
  exact aplicaEscritas_frame _ ws r c (fun e he hec =>
    hc (hec ▸ preencherEscritas_cols dados s e he))

/-- Witness for C4: with one empty record starting at row 1,
`Fornecedor` lands in column B; the write `((1,2), "")` has a mapped
column; and column F (index 6) of an empty sheet is untouched. -/
theorem C4_column_mapping_witness :
    (((1 + 0, column_index_from_string "B"),
      Registro.get ([([] : Registro)].get ⟨0, by decide⟩) "Fornecedor" (CellValue.str "")) ∈
      preencherEscritas [[]] 1) ∧
    ((((1, 2), CellValue.str "") : Escrita).1.2 ∈ mappedColumns) ∧
    (((⟨[]⟩ : Sheet).aplicaEscritas (preencherEscritas [[]] 1)).getCelula (1, 6) =
      (⟨[]⟩ : Sheet).getCelula (1, 6)) :=
  ⟨(C4_column_mapping [[]] 1 ⟨[]⟩).2.1 0 (by decide) ("Fornecedor", "B") (by decide),
   (C4_column_mapping [[]] 1 ⟨[]⟩).2.2.1 ((1, 2), CellValue.str "") (by decide),
   (C4_column_mapping [[]] 1 ⟨[]⟩).2.2.2 1 6 (by decide)⟩


/-- Helper: the value of a digit character. -/
theorem digitChar_toNat (d : ℕ) (hd : d < 10) : (digitChar d).toNat = 48 + d := by
  interval_cases d <;> decide

/-- Helper: appending one digit multiplies the value by ten. -/
theorem digitsToNat_append_digit (cs : List Char) (c : Char) :
    digitsToNat (cs ++ [c]) = 10 * digitsToNat cs + (c.toNat - 48) := by
  unfold digitsToNat
  rw [List.foldl_append]
  rfl

/-- Helper: decimal rendering round-trips through `digitsToNat`. -/
theorem digitsToNat_decimalDigits :
    ∀ fuel n, n < fuel → digitsToNat (decimalDigits fuel n) = n := by
  intro fuel
  induction fuel with
  | zero => intro n h; omega
  | succ f ih =>
    intro n h
    rw [decimalDigits]
    by_cases h10 : n < 10
    · rw [if_pos h10]
      show digitsToNat [digitChar n] = n
      unfold digitsToNat
      simp [List.foldl_cons, digitChar_toNat n h10]
    · rw [if_neg h10, digitsToNat_append_digit]
      have h1 : n / 10 < n := Nat.div_lt_self (by omega) (by omega)
      rw [ih (n / 10) (by omega), digitChar_toNat (n % 10) (Nat.mod_lt _ (by omega))]
      omega

/-- Helper: Python decimal rendering of a nonnegative int is
injective. -/
theorem strOfNat_injective (a b : ℕ) (h : strOfNat a = strOfNat b) : a = b := by
  have hd : decimalDigits (a + 1) a = decimalDigits (b + 1) b := congrArg String.data h
  calc a = digitsToNat (decimalDigits (a + 1) a) :=
        (digitsToNat_decimalDigits _ _ (Nat.lt_succ_self a)).symm
    _ = digitsToNat (decimalDigits (b + 1) b) := by rw [hd]
    _ = b := digitsToNat_decimalDigits _ _ (Nat.lt_succ_self b)

/-- Helper: the characters of a result path. -/
theorem resultadoPath_data (base : String) (t : ℕ) :
    (resultadoPath base t).data =
      base.data ++ ("/uploads".data ++ ("/".data ++ ("resultado_".data ++
        (decimalDigits (t + 1) t ++ ".xlsx".data)))) := by
  simp only [resultadoPath, UPLOAD_FOLDER, resultadoNome, strOfNat, String.data_append,
    List.append_assoc]

/-- Helper: the characters of the template path. -/
theorem TEMPLATE_XLSX_data (base : String) :
    (TEMPLATE_XLSX base).data = base.data ++ "/planilha_teste.xlsx".data := by
  simp only [TEMPLATE_XLSX, String.data_append]

/-- Helper: the template path never coincides with a result path (the
two differ right after the shared base directory: `/p…` versus
`/u…`). -/
theorem TEMPLATE_ne_resultadoPath (base : String) (t : ℕ) :
    TEMPLATE_XLSX base ≠ resultadoPath base t := by
  intro h
  have hd := congrArg String.data h
  rw [TEMPLATE_XLSX_data, resultadoPath_data] at hd
  have ht := List.append_cancel_left hd
  have h1 := congrArg (fun l : List Char => l[1]?) ht
  simp only at h1
  rw [List.getElem?_append_left (by decide)] at h1
  exact absurd h1 (by decide)

/-- C5: the filler mutates only the freshly copied result file: any
path other than the result path — in particular the template path,
which never equals a result path — holds the same content after the
call as before, in every outcome. -/
theorem C5_template_unchanged (fs : FS) (dados : List Registro)
    (aba base : String) (t : ℕ) :
    (∀ p, p ≠ resultadoPath base t →
      (preencher_planilha_template fs dados (TEMPLATE_XLSX base) aba base t).1 p = fs p) ∧
    (preencher_planilha_template fs dados (TEMPLATE_XLSX base) aba base t).1
        (TEMPLATE_XLSX base) = fs (TEMPLATE_XLSX base) := by
  have hmain : ∀ p, p ≠ resultadoPath base t →
      (preencher_planilha_template fs dados (TEMPLATE_XLSX base) aba base t).1 p = fs p := by
    intro p hp
    unfold preencher_planilha_template
    cases hfs : fs (TEMPLATE_XLSX base) with
    | none => rfl
    | some wb =>
      by_cases hs : aba ∈ wb.sheetnames
      · simp [hs, hp]
      · simp [hs, hp]
  exact ⟨hmain, hmain _ (TEMPLATE_ne_resultadoPath base t)⟩

/-- Witness for C5: a concrete filesystem holding one template
workbook; after a fill, an unrelated path and the template path are
unchanged. -/
theorem C5_template_unchanged_witness :
    (preencher_planilha_template
        (fun p => if p = TEMPLATE_XLSX "/app" then some ⟨[("Omie_Contas_Pagar", ⟨[]⟩)]⟩ else none)
        [] (TEMPLATE_XLSX "/app") "Omie_Contas_Pagar" "/app" 7).1 "/app/outro.txt" =
      (fun p => if p = TEMPLATE_XLSX "/app" then some ⟨[("Omie_Contas_Pagar", ⟨[]⟩)]⟩ else none)
        "/app/outro.txt" ∧
    (preencher_planilha_template
        (fun p => if p = TEMPLATE_XLSX "/app" then some ⟨[("Omie_Contas_Pagar", ⟨[]⟩)]⟩ else none)
        [] (TEMPLATE_XLSX "/app") "Omie_Contas_Pagar" "/app" 7).1 (TEMPLATE_XLSX "/app") =
      (fun p => if p = TEMPLATE_XLSX "/app" then some ⟨[("Omie_Contas_Pagar", ⟨[]⟩)]⟩ else none)
        (TEMPLATE_XLSX "/app") :=
  ⟨(C5_template_unchanged
      (fun p => if p = TEMPLATE_XLSX "/app" then some ⟨[("Omie_Contas_Pagar", ⟨[]⟩)]⟩ else none)
      [] "Omie_Contas_Pagar" "/app" 7).1 "/app/outro.txt" (by decide),
   (C5_template_unchanged
      (fun p => if p = TEMPLATE_XLSX "/app" then some ⟨[("Omie_Contas_Pagar", ⟨[]⟩)]⟩ else none)
      [] "Omie_Contas_Pagar" "/app" 7).2⟩

/-- C6: when the requested sheet is absent from the template workbook,
the filler fails with the TemplateError (the `ValueError` of `app.py`
line 114) rather than returning a path, and the template file's
content is untouched by the failure. -/
theorem C6_missing_sheet (fs : FS) (wb : Workbook) (dados : List Registro)
    (aba base : String) (t : ℕ)
    (hwb : fs (TEMPLATE_XLSX base) = some wb) (haba : aba ∉ wb.sheetnames) :
    (preencher_planilha_template fs dados (TEMPLATE_XLSX base) aba base t).2 =
      FillOutcome.templateError aba ∧
    (preencher_planilha_template fs dados (TEMPLATE_XLSX base) aba base t).1
        (TEMPLATE_XLSX base) = fs (TEMPLATE_XLSX base) := by
  unfold preencher_planilha_template
  rw [hwb]
  refine ⟨by simp [haba], ?_⟩
  simp [haba, TEMPLATE_ne_resultadoPath base t, hwb]

/-- Witness for C6: a one-sheet template and the request for
`NoSuchSheet`. -/
theorem C6_missing_sheet_witness :
    (preencher_planilha_template
        (fun p => if p = TEMPLATE_XLSX "/app" then some ⟨[("Omie_Contas_Pagar", ⟨[]⟩)]⟩ else none)
        [] (TEMPLATE_XLSX "/app") "NoSuchSheet" "/app" 5).2 =
      FillOutcome.templateError "NoSuchSheet" ∧
    (preencher_planilha_template
        (fun p => if p = TEMPLATE_XLSX "/app" then some ⟨[("Omie_Contas_Pagar", ⟨[]⟩)]⟩ else none)
        [] (TEMPLATE_XLSX "/app") "NoSuchSheet" "/app" 5).1 (TEMPLATE_XLSX "/app") =
      (fun p => if p = TEMPLATE_XLSX "/app" then some ⟨[("Omie_Contas_Pagar", ⟨[]⟩)]⟩ else none)
        (TEMPLATE_XLSX "/app") :=
  C6_missing_sheet
    (fun p => if p = TEMPLATE_XLSX "/app" then some ⟨[("Omie_Contas_Pagar", ⟨[]⟩)]⟩ else none)
    ⟨[("Omie_Contas_Pagar", ⟨[]⟩)]⟩ [] "NoSuchSheet" "/app" 5 (by simp) (by decide)

/-- C7 counterexample: two invocations of the filler that differ (one
appends no record, the other one record) but fall in the same clock
second (`int(time.time())` both 7) return the SAME result path, so the
generation timestamp does not make any two invocations produce
distinct paths. -/
theorem C7_counterexample :
    (preencher_planilha_template
        (fun p => if p = TEMPLATE_XLSX "/app" then some ⟨[("Omie_Contas_Pagar", ⟨[]⟩)]⟩ else none)
        [] (TEMPLATE_XLSX "/app") "Omie_Contas_Pagar" "/app" 7).2 =
      FillOutcome.ok "/app/uploads/resultado_7.xlsx" ∧
    (preencher_planilha_template
        (fun p => if p = TEMPLATE_XLSX "/app" then some ⟨[("Omie_Contas_Pagar", ⟨[]⟩)]⟩ else none)
        [[("Fornecedor", CellValue.str "Ana")]] (TEMPLATE_XLSX "/app")
        "Omie_Contas_Pagar" "/app" 7).2 =
      FillOutcome.ok "/app/uploads/resultado_7.xlsx" ∧
    ([] : List Registro) ≠ [[("Fornecedor", CellValue.str "Ana")]] :=
  ⟨by decide, by decide, by decide⟩

/-- C7 (amended): a successful invocation returns exactly the path
determined by its generation timestamp, and two result paths are equal
precisely when the timestamps (whole seconds) are equal — so
invocations with distinct timestamps never collide, while invocations
within the same second share one path. -/
theorem C7_amended_path_uniqueness (base : String) (t₁ t₂ : ℕ) :
    (resultadoPath base t₁ = resultadoPath base t₂ ↔ t₁ = t₂) ∧
    (∀ fs : FS, ∀ dados caminho aba wb, fs caminho = some wb → aba ∈ wb.sheetnames →
      (preencher_planilha_template fs dados caminho aba base t₁).2 =
        FillOutcome.ok (resultadoPath base t₁)) := by
  constructor
  · constructor
    · intro h
      have hd := congrArg String.data h
      rw [resultadoPath_data, resultadoPath_data] at hd
      have h1 := List.append_cancel_left hd
      have h2 := List.append_cancel_left h1
      have h3 := List.append_cancel_left h2
      have h4 := List.append_cancel_left h3
      have h5 := List.append_cancel_right h4
      exact strOfNat_injective t₁ t₂ (congrArg String.mk h5)
    · intro h
      rw [h]
  · intro fs dados caminho aba wb hfs haba
    unfold preencher_planilha_template
    rw [hfs]
    simp [haba]

/-- Witness for C7 (amended): a successful concrete invocation returns
the timestamp-determined path. -/
theorem C7_amended_path_uniqueness_witness :
    (preencher_planilha_template
        (fun p => if p = TEMPLATE_XLSX "/app" then some ⟨[("Omie_Contas_Pagar", ⟨[]⟩)]⟩ else none)
        [] (TEMPLATE_XLSX "/app") "Omie_Contas_Pagar" "/app" 7).2 =
      FillOutcome.ok (resultadoPath "/app" 7) :=
  (C7_amended_path_uniqueness "/app" 7 7).2
    (fun p => if p = TEMPLATE_XLSX "/app" then some ⟨[("Omie_Contas_Pagar", ⟨[]⟩)]⟩ else none)
    [] (TEMPLATE_XLSX "/app") "Omie_Contas_Pagar" ⟨[("Omie_Contas_Pagar", ⟨[]⟩)]⟩
    (by simp) (by decide)

/-- Helper: a document all of whose pages contribute nothing extracts
to the empty record list. -/
theorem extrair_eq_nil (hoje : String) :
    ∀ pdf : Pdf, (∀ pagina ∈ pdf, extraiTabela hoje pagina = []) →
      extrair_dados_do_pdf hoje pdf = [] := by
  intro pdf h
  induction pdf with
  | nil => rfl
  | cons pagina resto ih =>
    show extraiTabela hoje pagina ++ extrair_dados_do_pdf hoje resto = []
    rw [h pagina (List.mem_cons_self _ _), List.nil_append]
    exact ih (fun x hx => h x (List.mem_cons_of_mem _ hx))

/-- C8: when the document cannot be opened or parsed, extraction fails
with the propagated exception wrapped as the spec's ExtractionError; a
document that opens but has no detected table on any page, or whose
detected tables have no qualifying data row, yields `ok []` rather
than a failure. -/
theorem C8_error_contract (hoje : String) :
    (∀ e, extrairResultado hoje (.error e) = .error (.wrap e)) ∧
    (∀ pdf : Pdf, (∀ pagina ∈ pdf, pagina = none) →
      extrairResultado hoje (.ok pdf) = .ok []) ∧
    (∀ pdf : Pdf,
      (∀ pagina ∈ pdf, ∀ linha ∈ (pagina.getD []).drop 1, processaLinha hoje linha = none) →
      extrairResultado hoje (.ok pdf) = .ok []) := by
  refine ⟨fun e => rfl, ?_, ?_⟩
  · intro pdf h
    show Except.ok (extrair_dados_do_pdf hoje pdf) = Except.ok []
    rw [extrair_eq_nil hoje pdf (fun pagina hp => by rw [h pagina hp]; rfl)]
  · intro pdf h
    show Except.ok (extrair_dados_do_pdf hoje pdf) = Except.ok []
    rw [extrair_eq_nil hoje pdf ?_]
    intro pagina hp
    cases pagina with
    | none => rfl
    | some tab =>
      show (tab.drop 1).filterMap (processaLinha hoje) = []
      exact List.filterMap_eq_nil_iff.mpr (fun linha hl => h (some tab) hp linha hl)

/-- Witness for C8: a corrupt document fails wrapped; a one-page
document without a table and a one-page document whose only data row
is too short both yield `ok []`. -/
theorem C8_error_contract_witness :
    extrairResultado "31/12/2025" (.error "arquivo corrompido") =
      .error (.wrap "arquivo corrompido") ∧
    extrairResultado "31/12/2025" (.ok [none]) = .ok [] ∧
    extrairResultado "31/12/2025" (.ok [some [[some "cab"], [some "x"]]]) = .ok [] :=
  ⟨(C8_error_contract "31/12/2025").1 "arquivo corrompido",
   (C8_error_contract "31/12/2025").2.1 [none] (by decide),
   (C8_error_contract "31/12/2025").2.2 [some [[some "cab"], [some "x"]]] (by decide)⟩

end Extrator
